import Mathlib

/-!
Shallow embedding of the alert-instance state machine in
`pkg/services/ngalert/state/state.go` (Grafana ngalert).

Modelling conventions:
* `time.Time` and `time.Duration` are both modelled as `Int` nanoseconds
  (Go stores both as 64-bit nanosecond counts); the zero `time.Time`
  (`IsZero`) is modelled as `0`.
* `int64(d.Seconds())` (float64 seconds truncated to int64) is modelled as
  exact truncated division `d.tdiv 1000000000`, and Go's `int64` division
  `/` as `Int.tdiv` (both truncate toward zero).
* Go string-keyed maps (`data.Labels`, `Annotations`) are modelled as
  association lists with map-update semantics (`setKV`); Go maps carry no
  observable order, and every comparison of maps below goes through a
  key-sorted canonical rendering.
* Fallible/absent values (`error`) are `Option`.
* The package-level constant `ResendDelay` and the structured error type
  `expr.QueryError` live outside the provided sources; following the spec
  they are modelled as an explicit `resendDelay` parameter and a tagged
  error variant carrying a reference and a message.
-/

set_option linter.dupNamespace false

namespace NgalertState

/-- eval.State: the categorical alert state (eval package, referenced by
state.go). -/
inductive EvalState where
  | Normal
  | Alerting
  | Pending
  | NoData
  | Error
deriving DecidableEq, Repr

/-- Modelled from the spec: `eval.State.String()` (eval package, not under
src/) renders each categorical state to its name. -/
def EvalState.render : EvalState → String
  | .Normal => "Normal"
  | .Alerting => "Alerting"
  | .Pending => "Pending"
  | .NoData => "NoData"
  | .Error => "Error"

/-- Modelled from the spec: the error taxonomy seen by the Error branch.
`expr.QueryError` (expr package, not under src/) is a structured query
error carrying a failing expression reference and a message; every other
Go error is an ordinary error with only a message. -/
inductive GoError where
  | queryError (refID : String) (msg : String)
  | plainError (msg : String)
deriving DecidableEq, Repr

/-- Modelled from the spec: `queryError.Error()` — the error's message,
copied into `Annotations` by the Error branch. -/
def GoError.message : GoError → String
  | .queryError _ msg => msg
  | .plainError msg => msg

/-- `errors.As(err, &queryError)`: succeeds exactly on a structured query
error (and fails on a nil error), yielding its reference and message. -/
def asQueryError : Option GoError → Option (String × String)
  | some (.queryError refID msg) => some (refID, msg)
  | _ => none

/-- One expression definition of a rule (`alertRule.Data` entry): its
reference and data-source identifier. -/
structure AlertQuery where
  RefID : String
  DatasourceUID : String
deriving DecidableEq, Repr

/-- ngModels.ExecutionErrorState: policy for evaluation errors. -/
inductive ExecutionErrorState where
  | AlertingErrState
  | ErrorErrState
deriving DecidableEq, Repr

/-- ngModels.NoDataState: policy for missing data. -/
inductive NoDataState where
  | Alerting
  | NoData
  | OK
deriving DecidableEq, Repr

/-- The rule configuration consumed by state.go (`ngModels.AlertRule`):
`For` is a duration in nanoseconds, `IntervalSeconds` a second count. -/
structure AlertRule where
  For : Int
  IntervalSeconds : Int
  ExecErrState : ExecutionErrorState
  NoDataState : NoDataState
  Data : List AlertQuery
deriving DecidableEq, Repr

/-- One retained evaluation snapshot (struct `Evaluation`). The numeric
values of reduce/math expressions (`map[string]*float64`) are never
inspected by the operations verified here; their payload is modelled as an
optional integer. -/
structure Evaluation where
  EvaluationTime : Int
  EvaluationState : EvalState
  EvaluationString : String
  Values : List (String × Option Int)
deriving DecidableEq, Repr

/-- One evaluation result (`eval.Result`): categorical outcome, evaluation
timestamp, optional error. -/
structure Result where
  State : EvalState
  EvaluatedAt : Int
  Error : Option GoError
deriving DecidableEq, Repr

/-- The alert instance state (struct `State` in state.go). Times are `Int`
nanoseconds; the zero time is `0`. -/
structure State where
  AlertRuleUID : String
  OrgID : Int
  CacheId : String
  State : EvalState
  Resolved : Bool
  Results : List Evaluation
  StartsAt : Int
  EndsAt : Int
  LastEvaluationTime : Int
  EvaluationDuration : Int
  LastSentAt : Int
  Annotations : List (String × String)
  Labels : List (String × String)
  Error : Option GoError
deriving DecidableEq, Repr

/-- Nanoseconds per second (`time.Second`). -/
def nanosPerSec : Int := 1000000000

/-- Go map assignment `m[k] = v`: replaces any binding of `k` with `v`.
Association-list representation of an unordered Go map. -/
def setKV (m : List (String × String)) (k v : String) : List (String × String) :=
  (k, v) :: m.filter (fun p => ¬ p.1 = k)

/-- Go map read `m[k]`. -/
def getKV (m : List (String × String)) (k : String) : Option String :=
  (m.find? (fun p => p.1 = k)).map (fun p => p.2)

/-- The `ends` duration computed by `setEndsAt` in state.go: the rule's
interval as a duration when `IntervalSeconds > int64(ResendDelay.Seconds())`,
else the fixed resend delay. -/
def endsDuration (resendDelay : Int) (rule : AlertRule) : Int :=
  if rule.IntervalSeconds > resendDelay.tdiv nanosPerSec then
    nanosPerSec * rule.IntervalSeconds
  else
    resendDelay

/-- `(*State).setEndsAt`: `a.EndsAt = result.EvaluatedAt.Add(ends * 3)`. -/
def setEndsAt (resendDelay : Int) (rule : AlertRule) (r : Result) (a : State) : State :=
  { a with EndsAt := r.EvaluatedAt + endsDuration resendDelay rule * 3 }

/-- `(*State).resultNormal` from state.go. -/
def resultNormal (rule : AlertRule) (r : Result) (a : State) : State :=
  let a := { a with Error := r.Error }
  let a := if a.State ≠ EvalState.Normal then
      { a with EndsAt := r.EvaluatedAt, StartsAt := r.EvaluatedAt }
    else a
  { a with State := EvalState.Normal }

/-- `(*State).resultAlerting` from state.go. -/
def resultAlerting (resendDelay : Int) (rule : AlertRule) (r : Result) (a : State) : State :=
  let a := { a with Error := r.Error }
  match a.State with
  | EvalState.Alerting => setEndsAt resendDelay rule r a
  | EvalState.Pending =>
      if r.EvaluatedAt - a.StartsAt > rule.For then
        setEndsAt resendDelay rule r
          { a with State := EvalState.Alerting, StartsAt := r.EvaluatedAt }
      else a
  | _ =>
      let a := setEndsAt resendDelay rule r { a with StartsAt := r.EvaluatedAt }
      if ¬ rule.For > 0 then
        { a with State := EvalState.Alerting }
      else
        { a with State := EvalState.Pending }

/-- `(*State).resultError` from state.go. The `for`/`break` loop over
`alertRule.Data` is the first entry whose `RefID` matches, i.e. `find?`;
note the `Annotations` write sits outside that loop. -/
def resultError (resendDelay : Int) (rule : AlertRule) (r : Result) (a : State) : State :=
  let a := { a with Error := r.Error }
  let a := if a.StartsAt = 0 then { a with StartsAt := r.EvaluatedAt } else a
  let a := setEndsAt resendDelay rule r a
  match rule.ExecErrState with
  | ExecutionErrorState.AlertingErrState => { a with State := EvalState.Alerting }
  | ExecutionErrorState.ErrorErrState =>
      let a := { a with State := EvalState.Error }
      match asQueryError a.Error with
      | some (refID, msg) =>
          let a := match rule.Data.find? (fun q => q.RefID == refID) with
            | some q =>
                let ls := setKV (setKV a.Labels "ref_id" q.RefID) "datasource_uid" q.DatasourceUID
                { a with Labels := ls }
            | none => a
          { a with Annotations := setKV a.Annotations "Error" msg }
      | none => a

/-- `(*State).resultNoData` from state.go. -/
def resultNoData (resendDelay : Int) (rule : AlertRule) (r : Result) (a : State) : State :=
  let a := { a with Error := r.Error }
  let a := if a.StartsAt = 0 then { a with StartsAt := r.EvaluatedAt } else a
  let a := setEndsAt resendDelay rule r a
  match rule.NoDataState with
  | NoDataState.Alerting => { a with State := EvalState.Alerting }
  | NoDataState.NoData => { a with State := EvalState.NoData }
  | NoDataState.OK => { a with State := EvalState.Normal }

/-- Modelled from the spec: the `Transition` entry point (spec §4.1)
dispatches on the result's categorical outcome — one of Normal, Alerting,
Error, NoData — to the four branch handlers embedded above from state.go;
the dispatcher itself lives outside src/. A `Pending` outcome is not a
result outcome and leaves the state untouched. -/
def Transition (resendDelay : Int) (rule : AlertRule) (r : Result) (a : State) : State :=
  match r.State with
  | EvalState.Normal => resultNormal rule r a
  | EvalState.Alerting => resultAlerting resendDelay rule r a
  | EvalState.Error => resultError resendDelay rule r a
  | EvalState.NoData => resultNoData resendDelay rule r a
  | EvalState.Pending => a

/-- `(*State).NeedsSending` from state.go: `nextSent.Before(t) ||
nextSent.Equal(t)` is `≤` on nanosecond timestamps. -/
def NeedsSending (a : State) (resendDelay : Int) : Bool :=
  if a.State = EvalState.Pending ∨ (a.State = EvalState.Normal ∧ ¬ a.Resolved) then
    false
  else
    decide (a.LastSentAt + resendDelay ≤ a.LastEvaluationTime)

/-- Total lexicographic comparison of character lists by code point,
underlying the canonical key-sorted rendering of a map. -/
def lexLe : List Char → List Char → Bool
  | [], _ => true
  | _ :: _, [] => false
  | a :: as, b :: bs =>
      if a.toNat < b.toNat then true
      else if b.toNat < a.toNat then false
      else lexLe as bs

/-- Lexicographic comparison of strings by code point. -/
def strLe (a b : String) : Bool :=
  lexLe a.data b.data

/-- Key-sorted order on map entries: by key, ties broken by value (a Go
map never holds two bindings of one key; the tiebreak only makes the
order total). -/
def pairKeyOrder (p q : String × String) : Prop :=
  (if p.1 = q.1 then strLe p.2 q.2 else strLe p.1 q.1) = true

instance pairKeyOrderDec : DecidableRel pairKeyOrder := fun p q =>
  inferInstanceAs (Decidable (_ = true))

/-- Modelled from the spec: `data.Labels.String()` (plugin SDK, not under
src/) renders a map to a canonical text form, order-independent over the
entries (sorted by key). -/
def labelsString (m : List (String × String)) : String :=
  String.intercalate ", "
    ((List.insertionSort pairKeyOrder m).map (fun p => p.1 ++ "=" ++ p.2))

/-- `(*State).Equals` from state.go. -/
def Equals (a b : State) : Bool :=
  decide (a.AlertRuleUID = b.AlertRuleUID) &&
  decide (a.OrgID = b.OrgID) &&
  decide (a.CacheId = b.CacheId) &&
  decide (labelsString a.Labels = labelsString b.Labels) &&
  decide (a.State.render = b.State.render) &&
  decide (a.StartsAt = b.StartsAt) &&
  decide (a.EndsAt = b.EndsAt) &&
  decide (a.LastEvaluationTime = b.LastEvaluationTime) &&
  decide (labelsString a.Annotations = labelsString b.Annotations)

/-- `(*State).TrimResults` from state.go. `int64(alertRule.For.Seconds())`
and the int64 division both truncate toward zero (`Int.tdiv`); the slice
`a.Results[len-numBuckets:]` copied into a fresh slice of length
`numBuckets` is the suffix of the most recent `numBuckets` entries. -/
def TrimResults (rule : AlertRule) (a : State) : State :=
  let numBuckets : Int := 2 * ((rule.For.tdiv nanosPerSec).tdiv rule.IntervalSeconds)
  let numBuckets : Int := if numBuckets = 0 then 10 else numBuckets
  if (a.Results.length : Int) < numBuckets then a
  else { a with Results := a.Results.drop (a.Results.length - numBuckets.toNat) }

/-! ### Concrete instances used by counterexamples and witnesses -/

/-- A Pending state with StartsAt 0 and a recognisable EndsAt. -/
def c3State : State :=
  ⟨"uid", 1, "cache", EvalState.Pending, false, [], 0, 42, 0, 0, 0, [], [], none⟩

def c3Rule : AlertRule :=
  ⟨100, 1, ExecutionErrorState.ErrorErrState, NoDataState.NoData, []⟩

def c3Res : Result := ⟨EvalState.Alerting, 50, none⟩

def c8State : State :=
  ⟨"uid", 1, "cache", EvalState.Normal, false, [], 0, 0, 0, 0, 0, [], [], none⟩

def c8Rule : AlertRule :=
  ⟨0, 60, ExecutionErrorState.ErrorErrState, NoDataState.NoData, [⟨"A", "ds1"⟩]⟩

def c8Res : Result := ⟨EvalState.Error, 50, some (GoError.queryError "B" "boom")⟩

def w1State : State :=
  ⟨"uid", 1, "cache", EvalState.Pending, false, [], 0, 42, 0, 0, 0, [], [], none⟩

def w1Rule : AlertRule :=
  ⟨100, 1, ExecutionErrorState.ErrorErrState, NoDataState.NoData, []⟩

def w1Res : Result := ⟨EvalState.Alerting, 150, none⟩

def w2State : State :=
  ⟨"uid", 1, "cache", EvalState.Normal, false, [], 0, 0, 0, 0, 0, [], [], none⟩

def w2Rule : AlertRule :=
  ⟨0, 60, ExecutionErrorState.ErrorErrState, NoDataState.NoData, []⟩

def w2Res : Result := ⟨EvalState.Alerting, 60, none⟩

def w3State : State :=
  ⟨"uid", 1, "cache", EvalState.Normal, false, [], 7, 9, 0, 0, 0, [], [], none⟩

def w3Rule : AlertRule :=
  ⟨0, 60, ExecutionErrorState.ErrorErrState, NoDataState.NoData, []⟩

def w3Res : Result := ⟨EvalState.Error, 50, some (GoError.plainError "kaput")⟩

def w4State : State :=
  ⟨"uid", 1, "cache", EvalState.Alerting, false, [], 3, 4, 0, 0, 0, [], [], none⟩

def w4Rule : AlertRule :=
  ⟨0, 60, ExecutionErrorState.ErrorErrState, NoDataState.NoData, []⟩

def w4Res : Result := ⟨EvalState.Normal, 80, none⟩

def w5State : State :=
  ⟨"uid", 1, "cache", EvalState.Alerting, false, [], 0, 0, 10, 0, 0, [], [], none⟩

def w6Eval : Evaluation := ⟨0, EvalState.Normal, "", []⟩

def w6State : State :=
  ⟨"uid", 1, "cache", EvalState.Alerting, false, List.replicate 15 w6Eval,
    0, 0, 0, 0, 0, [], [], none⟩

def w6Rule : AlertRule :=
  ⟨300 * 1000000000, 60, ExecutionErrorState.ErrorErrState, NoDataState.NoData, []⟩

def w7State : State :=
  ⟨"uid", 1, "cache", EvalState.Normal, false, [], 0, 0, 0, 0, 0, [], [], none⟩

def w7Rule : AlertRule :=
  ⟨0, 60, ExecutionErrorState.ErrorErrState, NoDataState.NoData, [⟨"A", "ds1"⟩]⟩

def w7Res : Result := ⟨EvalState.Error, 50, some (GoError.queryError "A" "boom")⟩

def w9a : State :=
  ⟨"uid", 1, "cache", EvalState.Alerting, false, [], 1, 2, 3, 0, 0,
    [("x", "y"), ("u", "v")], [("a", "1"), ("b", "2")], none⟩

def w9b : State :=
  ⟨"uid", 1, "cache", EvalState.Alerting, false, [], 1, 2, 3, 4, 5,
    [("u", "v"), ("x", "y")], [("b", "2"), ("a", "1")], none⟩

/-! ### Order properties of the canonical key-sorted rendering -/

theorem lexLe_total : ∀ x y : List Char, lexLe x y = true ∨ lexLe y x = true
  | [], _ => Or.inl rfl
  | _ :: _, [] => Or.inr rfl
  | a :: as, b :: bs => by
      by_cases h1 : a.toNat < b.toNat
      · exact Or.inl (by simp [lexLe, h1])
      · by_cases h2 : b.toNat < a.toNat
        · exact Or.inr (by simp [lexLe, h2])
        · rcases lexLe_total as bs with h | h
          · exact Or.inl (by simp [lexLe, h1, h2, h])
          · exact Or.inr (by simp [lexLe, h1, h2, h])

theorem lexLe_trans : ∀ x y z : List Char,
    lexLe x y = true → lexLe y z = true → lexLe x z = true
  | [], _, _, _, _ => rfl
  | _ :: _, [], _, h, _ => by simp [lexLe] at h
  | _ :: _, _ :: _, [], _, h => by simp [lexLe] at h
  | a :: as, b :: bs, c :: cs, h1, h2 => by
      simp only [lexLe] at h1 h2 ⊢
      rcases Nat.lt_trichotomy a.toNat b.toNat with hab | hab | hab
      · rcases Nat.lt_trichotomy b.toNat c.toNat with hbc | hbc | hbc
        · simp [Nat.lt_trans hab hbc]
        · simp [hbc ▸ hab]
        · simp [Nat.lt_asymm hbc, hbc] at h2
      · rcases Nat.lt_trichotomy b.toNat c.toNat with hbc | hbc | hbc
        · simp [hab ▸ hbc]
        · have hac : a.toNat = c.toNat := hab.trans hbc
          simp [hab, hbc, hac] at h1 h2 ⊢
          exact lexLe_trans as bs cs h1 h2
        · simp [Nat.lt_asymm hbc, hbc] at h2
      · simp [Nat.lt_asymm hab, hab] at h1

theorem lexLe_antisymm : ∀ {x y : List Char},
    lexLe x y = true → lexLe y x = true → x = y
  | [], [], _, _ => rfl
  | [], _ :: _, _, h => by simp [lexLe] at h
  | _ :: _, [], h, _ => by simp [lexLe] at h
  | a :: as, b :: bs, h1, h2 => by
      simp only [lexLe] at h1 h2
      rcases Nat.lt_trichotomy a.toNat b.toNat with hab | hab | hab
      · simp [Nat.lt_asymm hab, hab] at h2
      · have hch : a = b := Char.ext (UInt32.toNat.inj hab)
        subst hch
        simp at h1 h2
        exact congrArg (List.cons a) (lexLe_antisymm h1 h2)
      · simp [Nat.lt_asymm hab, hab] at h1

theorem strLe_total (a b : String) : strLe a b = true ∨ strLe b a = true :=
  lexLe_total a.data b.data

theorem strLe_trans {a b c : String} (h1 : strLe a b = true) (h2 : strLe b c = true) :
    strLe a c = true :=
  lexLe_trans a.data b.data c.data h1 h2

theorem strLe_antisymm {a b : String} (h1 : strLe a b = true) (h2 : strLe b a = true) :
    a = b := by
  have h := lexLe_antisymm h1 h2
  cases a
  cases b
  exact congrArg String.mk h

instance : IsTotal (String × String) pairKeyOrder :=
  ⟨fun p q => by
    unfold pairKeyOrder
    by_cases h : p.1 = q.1
    · have h' : q.1 = p.1 := h.symm
      simp only [if_pos h, if_pos h']
      exact strLe_total p.2 q.2
    · have h' : ¬ q.1 = p.1 := fun e => h e.symm
      simp only [if_neg h, if_neg h']
      exact strLe_total p.1 q.1⟩

instance : IsTrans (String × String) pairKeyOrder :=
  ⟨fun p q r hpq hqr => by
    unfold pairKeyOrder at hpq hqr ⊢
    by_cases hpq1 : p.1 = q.1 <;> by_cases hqr1 : q.1 = r.1
    · rw [if_pos hpq1] at hpq
      rw [if_pos hqr1] at hqr
      rw [if_pos (hpq1.trans hqr1)]
      exact strLe_trans hpq hqr
    · have hpr : ¬ p.1 = r.1 := fun e => hqr1 (hpq1.symm.trans e)
      rw [if_neg hqr1] at hqr
      rw [if_neg hpr, hpq1]
      exact hqr
    · have hpr : ¬ p.1 = r.1 := fun e => hpq1 (e.trans hqr1.symm)
      rw [if_neg hpq1] at hpq
      rw [if_neg hpr, ← hqr1]
      exact hpq
    · rw [if_neg hpq1] at hpq
      rw [if_neg hqr1] at hqr
      by_cases hpr : p.1 = r.1
      · exfalso
        apply hpq1
        apply strLe_antisymm hpq
        rw [hpr]
        exact hqr
      · rw [if_neg hpr]
        exact strLe_trans hpq hqr⟩

instance : IsAntisymm (String × String) pairKeyOrder :=
  ⟨fun p q hpq hqp => by
    unfold pairKeyOrder at hpq hqp
    by_cases h : p.1 = q.1
    · have h' : q.1 = p.1 := h.symm
      rw [if_pos h] at hpq
      rw [if_pos h'] at hqp
      exact Prod.ext h (strLe_antisymm hpq hqp)
    · have h' : ¬ q.1 = p.1 := fun e => h e.symm
      rw [if_neg h] at hpq
      rw [if_neg h'] at hqp
      exact absurd (strLe_antisymm hpq hqp) h⟩

/-- The canonical rendering is invariant under reordering of the entries. -/
theorem labelsString_perm {m₁ m₂ : List (String × String)} (h : m₁.Perm m₂) :
    labelsString m₁ = labelsString m₂ := by
  unfold labelsString
  have : List.insertionSort pairKeyOrder m₁ = List.insertionSort pairKeyOrder m₂ :=
    List.eq_of_perm_of_sorted
      ((List.perm_insertionSort _ _).trans (h.trans (List.perm_insertionSort _ _).symm))
      (List.sorted_insertionSort _ _) (List.sorted_insertionSort _ _)
  rw [this]

/-! ### Map update lemmas -/

theorem getKV_setKV_same (m : List (String × String)) (k v : String) :
    getKV (setKV m k v) k = some v := by
  simp [getKV, setKV]

theorem find_filter_ne (m : List (String × String)) (k k' : String) (h : ¬ k' = k) :
    (m.filter (fun p => ¬ p.1 = k)).find? (fun p => p.1 = k') =
      m.find? (fun p => p.1 = k') := by
  induction m with
  | nil => rfl
  | cons p t ih =>
      by_cases h1 : p.1 = k
      · have h2 : ¬ p.1 = k' := fun e => h (e.symm.trans h1)
        rw [List.filter_cons_of_neg (by simp [h1]), ih,
          List.find?_cons_of_neg _ (by simp [h2])]
      · rw [List.filter_cons_of_pos (by simp [h1])]
        by_cases h2 : p.1 = k'
        · rw [List.find?_cons_of_pos _ (by simp [h2]),
            List.find?_cons_of_pos _ (by simp [h2])]
        · rw [List.find?_cons_of_neg _ (by simp [h2]),
            List.find?_cons_of_neg _ (by simp [h2]), ih]

theorem getKV_setKV_other (m : List (String × String)) (k k' v : String) (h : ¬ k' = k) :
    getKV (setKV m k v) k' = getKV m k' := by
  have h' : ¬ k = k' := fun e => h e.symm
  unfold getKV setKV
  rw [List.find?_cons_of_neg _ (by simp [h']), find_filter_ne m k k' h]

/-! ### The auto-resolve window formula -/

/-- For a nonnegative resend delay, the `ends` duration of `setEndsAt` is
exactly the larger of the fixed resend delay and the rule interval
converted to a duration. -/
theorem endsDuration_eq_max (rd : Int) (rule : AlertRule) (h : 0 ≤ rd) :
    endsDuration rd rule = max rd (nanosPerSec * rule.IntervalSeconds) := by
  have htd : rd.tdiv nanosPerSec = rd / nanosPerSec :=
    Int.tdiv_eq_ediv h (by decide)
  unfold endsDuration
  rw [htd]
  by_cases hc : rule.IntervalSeconds > rd / nanosPerSec
  · rw [if_pos hc]
    have hle : rd ≤ nanosPerSec * rule.IntervalSeconds := by
      simp only [nanosPerSec] at hc ⊢
      omega
    exact (max_eq_right hle).symm
  · rw [if_neg hc]
    have hle : nanosPerSec * rule.IntervalSeconds ≤ rd := by
      simp only [nanosPerSec] at hc ⊢
      omega
    exact (max_eq_left hle).symm

/-! ### Frame lemmas: no transition branch touches the identity or
bookkeeping fields -/

theorem sameFrame_resultNormal (rule : AlertRule) (r : Result) (a : State) :
    (resultNormal rule r a).AlertRuleUID = a.AlertRuleUID ∧
    (resultNormal rule r a).OrgID = a.OrgID ∧
    (resultNormal rule r a).CacheId = a.CacheId ∧
    (resultNormal rule r a).LastSentAt = a.LastSentAt ∧
    (resultNormal rule r a).Resolved = a.Resolved ∧
    (resultNormal rule r a).Results = a.Results ∧
    (resultNormal rule r a).LastEvaluationTime = a.LastEvaluationTime ∧
    (resultNormal rule r a).EvaluationDuration = a.EvaluationDuration := by
  simp [resultNormal, apply_ite]

theorem sameFrame_resultAlerting (rd : Int) (rule : AlertRule) (r : Result) (a : State) :
    (resultAlerting rd rule r a).AlertRuleUID = a.AlertRuleUID ∧
    (resultAlerting rd rule r a).OrgID = a.OrgID ∧
    (resultAlerting rd rule r a).CacheId = a.CacheId ∧
    (resultAlerting rd rule r a).LastSentAt = a.LastSentAt ∧
    (resultAlerting rd rule r a).Resolved = a.Resolved ∧
    (resultAlerting rd rule r a).Results = a.Results ∧
    (resultAlerting rd rule r a).LastEvaluationTime = a.LastEvaluationTime ∧
    (resultAlerting rd rule r a).EvaluationDuration = a.EvaluationDuration := by
  cases hs : a.State <;> simp [resultAlerting, hs, setEndsAt, apply_ite]

theorem sameFrame_resultError (rd : Int) (rule : AlertRule) (r : Result) (a : State) :
    (resultError rd rule r a).AlertRuleUID = a.AlertRuleUID ∧
    (resultError rd rule r a).OrgID = a.OrgID ∧
    (resultError rd rule r a).CacheId = a.CacheId ∧
    (resultError rd rule r a).LastSentAt = a.LastSentAt ∧
    (resultError rd rule r a).Resolved = a.Resolved ∧
    (resultError rd rule r a).Results = a.Results ∧
    (resultError rd rule r a).LastEvaluationTime = a.LastEvaluationTime ∧
    (resultError rd rule r a).EvaluationDuration = a.EvaluationDuration := by
  rcases r with ⟨rSt, rAt, rErr⟩
  rcases rule with ⟨f, is, ees, nds, data⟩
  cases ees <;> rcases rErr with _ | (⟨ref, msg⟩ | ⟨msg⟩) <;>
    simp [resultError, asQueryError, setEndsAt, apply_ite] <;>
    rcases hf : data.find? (fun q => q.RefID == ref) with _ | q <;>
    simp [hf]

theorem sameFrame_resultNoData (rd : Int) (rule : AlertRule) (r : Result) (a : State) :
    (resultNoData rd rule r a).AlertRuleUID = a.AlertRuleUID ∧
    (resultNoData rd rule r a).OrgID = a.OrgID ∧
    (resultNoData rd rule r a).CacheId = a.CacheId ∧
    (resultNoData rd rule r a).LastSentAt = a.LastSentAt ∧
    (resultNoData rd rule r a).Resolved = a.Resolved ∧
    (resultNoData rd rule r a).Results = a.Results ∧
    (resultNoData rd rule r a).LastEvaluationTime = a.LastEvaluationTime ∧
    (resultNoData rd rule r a).EvaluationDuration = a.EvaluationDuration := by
  rcases rule with ⟨f, is, ees, nds, data⟩
  cases nds <;> simp [resultNoData, setEndsAt, apply_ite]

theorem resultError_endsAt (rd : Int) (rule : AlertRule) (r : Result) (a : State) :
    (resultError rd rule r a).EndsAt = r.EvaluatedAt + endsDuration rd rule * 3 := by
  rcases r with ⟨rSt, rAt, rErr⟩
  rcases rule with ⟨f, is, ees, nds, data⟩
  cases ees <;> rcases rErr with _ | (⟨ref, msg⟩ | ⟨msg⟩) <;>
    simp [resultError, asQueryError, setEndsAt, apply_ite] <;>
    rcases hf : data.find? (fun q => q.RefID == ref) with _ | q <;>
    simp [hf]

theorem resultNoData_endsAt (rd : Int) (rule : AlertRule) (r : Result) (a : State) :
    (resultNoData rd rule r a).EndsAt = r.EvaluatedAt + endsDuration rd rule * 3 := by
  rcases rule with ⟨f, is, ees, nds, data⟩
  cases nds <;> simp [resultNoData, setEndsAt, apply_ite]

/-! ### Claim theorems -/

/-- Claim C1: from a Pending state, an Alerting result promotes the state
to Alerting exactly when the time elapsed from StartsAt to the evaluation
timestamp strictly exceeds the rule's For duration; on promotion StartsAt
becomes the evaluation timestamp and EndsAt is refreshed to the
auto-resolve window, and below the threshold the state stays Pending with
StartsAt and EndsAt untouched. -/
theorem pending_promotion_claim1 (rd : Int) (rule : AlertRule) (r : Result) (s : State)
    (hs : s.State = EvalState.Pending) (hr : r.State = EvalState.Alerting) :
    ((Transition rd rule r s).State = EvalState.Alerting ↔
      r.EvaluatedAt - s.StartsAt > rule.For) ∧
    (r.EvaluatedAt - s.StartsAt > rule.For →
      (Transition rd rule r s).StartsAt = r.EvaluatedAt ∧
      (Transition rd rule r s).EndsAt = r.EvaluatedAt + endsDuration rd rule * 3) ∧
    (¬ r.EvaluatedAt - s.StartsAt > rule.For →
      (Transition rd rule r s).State = EvalState.Pending ∧
      (Transition rd rule r s).StartsAt = s.StartsAt ∧
      (Transition rd rule r s).EndsAt = s.EndsAt) := by
  by_cases hc : r.EvaluatedAt - s.StartsAt > rule.For <;>
    simp [Transition, hr, resultAlerting, hs, hc, setEndsAt]

/-- Claim C2: from a state that is neither Alerting nor Pending, an
Alerting result sets StartsAt to the evaluation timestamp, refreshes
EndsAt, and moves directly to Alerting when the rule's For duration is
zero, to Pending when For is positive. -/
theorem fresh_alerting_claim2 (rd : Int) (rule : AlertRule) (r : Result) (s : State)
    (hs1 : ¬ s.State = EvalState.Alerting) (hs2 : ¬ s.State = EvalState.Pending)
    (hr : r.State = EvalState.Alerting) :
    (Transition rd rule r s).StartsAt = r.EvaluatedAt ∧
    (Transition rd rule r s).EndsAt = r.EvaluatedAt + endsDuration rd rule * 3 ∧
    (rule.For = 0 → (Transition rd rule r s).State = EvalState.Alerting) ∧
    (rule.For > 0 → (Transition rd rule r s).State = EvalState.Pending) := by
  by_cases hf : rule.For > 0 <;>
    cases hsSt : s.State <;>
      first
      | exact absurd hsSt hs1
      | exact absurd hsSt hs2
      | (simp [Transition, hr, resultAlerting, hsSt, hf, setEndsAt]
         omega)
      | simp [Transition, hr, resultAlerting, hsSt, hf, setEndsAt]

/-- Claim C4: a Normal result clears the propagated error (a Normal result
carries none), sets the state to Normal, resets StartsAt and EndsAt to the
evaluation timestamp when the previous state was not Normal, and leaves
them untouched when it already was. -/
theorem normal_result_claim4 (rd : Int) (rule : AlertRule) (r : Result) (s : State)
    (hr : r.State = EvalState.Normal) (he : r.Error = none) :
    (Transition rd rule r s).Error = none ∧
    (Transition rd rule r s).State = EvalState.Normal ∧
    (¬ s.State = EvalState.Normal →
      (Transition rd rule r s).StartsAt = r.EvaluatedAt ∧
      (Transition rd rule r s).EndsAt = r.EvaluatedAt) ∧
    (s.State = EvalState.Normal →
      (Transition rd rule r s).StartsAt = s.StartsAt ∧
      (Transition rd rule r s).EndsAt = s.EndsAt) := by
  by_cases hn : s.State = EvalState.Normal <;>
    simp [Transition, hr, resultNormal, hn, he]

/-- Claim C5: NeedsSending is false for a Pending state and for a Normal
state that is not Resolved; in every other case it is true exactly when
LastSentAt plus the resend delay is at or before LastEvaluationTime. -/
theorem needs_sending_claim5 (rd : Int) (s : State) :
    (s.State = EvalState.Pending → NeedsSending s rd = false) ∧
    (s.State = EvalState.Normal → s.Resolved = false → NeedsSending s rd = false) ∧
    (¬ s.State = EvalState.Pending → ¬ (s.State = EvalState.Normal ∧ s.Resolved = false) →
      (NeedsSending s rd = true ↔ s.LastSentAt + rd ≤ s.LastEvaluationTime)) := by
  unfold NeedsSending
  refine ⟨fun h => by simp [h], fun h1 h2 => by simp [h1, h2], fun h1 h2 => ?_⟩
  have hcond : ¬ (s.State = EvalState.Pending ∨
      (s.State = EvalState.Normal ∧ ¬ s.Resolved)) := by
    rintro (hp | ⟨hn, hres⟩)
    · exact h1 hp
    · exact h2 ⟨hn, by simpa using hres⟩
  rw [if_neg hcond]
  simp

/-- Claim C10: Transition never changes the identity triple, LastSentAt,
Resolved, the retained evaluation history, LastEvaluationTime or
EvaluationDuration, whatever the result outcome. -/
theorem transition_frame_claim10 (rd : Int) (rule : AlertRule) (r : Result) (s : State) :
    (Transition rd rule r s).AlertRuleUID = s.AlertRuleUID ∧
    (Transition rd rule r s).OrgID = s.OrgID ∧
    (Transition rd rule r s).CacheId = s.CacheId ∧
    (Transition rd rule r s).LastSentAt = s.LastSentAt ∧
    (Transition rd rule r s).Resolved = s.Resolved ∧
    (Transition rd rule r s).Results = s.Results ∧
    (Transition rd rule r s).LastEvaluationTime = s.LastEvaluationTime ∧
    (Transition rd rule r s).EvaluationDuration = s.EvaluationDuration := by
  cases hr : r.State
  case Normal =>
    have h := sameFrame_resultNormal rule r s
    simpa [Transition, hr] using h
  case Alerting =>
    have h := sameFrame_resultAlerting rd rule r s
    simpa [Transition, hr] using h
  case Pending => simp [Transition, hr]
  case NoData =>
    have h := sameFrame_resultNoData rd rule r s
    simpa [Transition, hr] using h
  case Error =>
    have h := sameFrame_resultError rd rule r s
    simpa [Transition, hr] using h

/-- Claim C3 as stated is false: on an Alerting result applied to a
Pending state below the For threshold, Transition leaves EndsAt at its old
value instead of the formula value. -/
theorem endsAt_formula_claim3_counterexample :
    ¬ (Transition 0 c3Rule c3Res c3State).EndsAt =
        c3Res.EvaluatedAt + 3 * max 0 (nanosPerSec * c3Rule.IntervalSeconds) := by
  decide

/-- Claim C3 (amended): for a nonnegative resend delay, after a Transition
on an Error or NoData result, or on an Alerting result except when a
Pending state stays below the For threshold (where EndsAt is left
untouched), the resulting EndsAt equals the evaluation timestamp plus
3 times max(fixed resend delay, rule IntervalSeconds as a duration); every
branch that refreshes EndsAt applies this same formula. -/
theorem endsAt_formula_claim3_amended (rd : Int) (rule : AlertRule) (r : Result) (s : State)
    (hrd : 0 ≤ rd)
    (hout : r.State = EvalState.Alerting ∨ r.State = EvalState.Error ∨
      r.State = EvalState.NoData)
    (href : ¬ (r.State = EvalState.Alerting ∧ s.State = EvalState.Pending ∧
      ¬ r.EvaluatedAt - s.StartsAt > rule.For)) :
    (Transition rd rule r s).EndsAt =
      r.EvaluatedAt + 3 * max rd (nanosPerSec * rule.IntervalSeconds) := by
  have key : endsDuration rd rule * 3 = 3 * max rd (nanosPerSec * rule.IntervalSeconds) := by
    rw [endsDuration_eq_max rd rule hrd]
    ring
  rcases hout with hA | hE | hN
  · rw [← key]
    cases hsSt : s.State
    case Pending =>
      have hc : r.EvaluatedAt - s.StartsAt > rule.For := by
        by_contra h
        exact href ⟨hA, hsSt, h⟩
      simp [Transition, hA, resultAlerting, hsSt, hc, setEndsAt]
    all_goals
      by_cases hf2 : rule.For > 0 <;>
        simp [Transition, hA, resultAlerting, hsSt, setEndsAt, hf2]
  · rw [← key]
    have h := resultError_endsAt rd rule r s
    simpa [Transition, hE] using h
  · rw [← key]
    have h := resultNoData_endsAt rd rule r s
    simpa [Transition, hN] using h

/-- Claim C6: TrimResults computes its capacity as
2 × (For in seconds / IntervalSeconds) with 10 substituted when that is
zero; a history shorter than the capacity is untouched, and otherwise the
history becomes exactly the most recent capacity entries in their original
order. -/
theorem trim_results_claim6 (rule : AlertRule) (s : State)
    (hFor : 0 ≤ rule.For) (hInt : 0 < rule.IntervalSeconds) :
    ∀ cap : Int,
      cap = (if 2 * ((rule.For.tdiv nanosPerSec).tdiv rule.IntervalSeconds) = 0 then 10
             else 2 * ((rule.For.tdiv nanosPerSec).tdiv rule.IntervalSeconds)) →
      ((s.Results.length : Int) < cap → (TrimResults rule s).Results = s.Results) ∧
      (¬ (s.Results.length : Int) < cap →
        (TrimResults rule s).Results = s.Results.drop (s.Results.length - cap.toNat) ∧
        ((TrimResults rule s).Results.length : Int) = cap) := by
  intro cap hcap
  have hq : 0 ≤ (rule.For.tdiv nanosPerSec).tdiv rule.IntervalSeconds := by
    apply Int.tdiv_nonneg
    · exact Int.tdiv_nonneg hFor (by decide)
    · exact le_of_lt hInt
  have hpos : 0 < cap := by
    rw [hcap]
    split
    · decide
    · next hne => omega
  constructor <;> intro h
  · rw [TrimResults]
    rw [← hcap]
    rw [if_pos h]
  · rw [TrimResults]
    rw [← hcap]
    rw [if_neg h]
    refine ⟨rfl, ?_⟩
    have hlen : cap.toNat ≤ s.Results.length := by omega
    simp [List.length_drop]
    omega

/-- Claim C7: an Error result carrying a structured query error whose
reference matches one of the rule's expression definitions (policy
ErrorErrState) yields state Error with Labels ref_id and datasource_uid
taken from the matching definition and Annotations Error set to the
error's message. -/
theorem error_enrichment_claim7 (rd : Int) (rule : AlertRule) (r : Result) (s : State)
    (ref msg : String) (q : AlertQuery)
    (hr : r.State = EvalState.Error)
    (hpol : rule.ExecErrState = ExecutionErrorState.ErrorErrState)
    (herr : r.Error = some (GoError.queryError ref msg))
    (hfind : rule.Data.find? (fun d => d.RefID == ref) = some q) :
    (Transition rd rule r s).State = EvalState.Error ∧
    getKV (Transition rd rule r s).Labels "ref_id" = some q.RefID ∧
    getKV (Transition rd rule r s).Labels "datasource_uid" = some q.DatasourceUID ∧
    getKV (Transition rd rule r s).Annotations "Error" = some msg := by
  have hS : (Transition rd rule r s).State = EvalState.Error := by
    simp [Transition, hr, resultError, hpol, herr, asQueryError, hfind, setEndsAt, apply_ite]
  have hL : (Transition rd rule r s).Labels =
      setKV (setKV s.Labels "ref_id" q.RefID) "datasource_uid" q.DatasourceUID := by
    simp [Transition, hr, resultError, hpol, herr, asQueryError, hfind, setEndsAt, apply_ite]
  have hA : (Transition rd rule r s).Annotations = setKV s.Annotations "Error" msg := by
    simp [Transition, hr, resultError, hpol, herr, asQueryError, hfind, setEndsAt, apply_ite]
  refine ⟨hS, ?_, ?_, ?_⟩
  · rw [hL, getKV_setKV_other _ _ _ _ (by decide), getKV_setKV_same]
  · rw [hL, getKV_setKV_same]
  · rw [hA, getKV_setKV_same]

/-- Claim C8 as stated is false: with a structured query error whose
reference matches no expression definition, Transition still writes
Annotations Error (the write sits outside the match loop in state.go), so
Labels and Annotations are not both left unchanged. -/
theorem error_no_match_claim8_counterexample :
    ¬ ((Transition 0 c8Rule c8Res c8State).Labels = c8State.Labels ∧
       (Transition 0 c8Rule c8Res c8State).Annotations = c8State.Annotations) := by
  decide

/-- Claim C8 (amended): when the query error's reference matches none of
the rule's expression definitions (policy ErrorErrState), Transition skips
the label enrichment, leaving Labels unchanged, but still sets
Annotations Error to the error's message. -/
theorem error_no_match_claim8_amended (rd : Int) (rule : AlertRule) (r : Result) (s : State)
    (ref msg : String)
    (hr : r.State = EvalState.Error)
    (hpol : rule.ExecErrState = ExecutionErrorState.ErrorErrState)
    (herr : r.Error = some (GoError.queryError ref msg))
    (hfind : rule.Data.find? (fun d => d.RefID == ref) = none) :
    (Transition rd rule r s).Labels = s.Labels ∧
    (Transition rd rule r s).Annotations = setKV s.Annotations "Error" msg := by
  constructor <;>
    simp [Transition, hr, resultError, hpol, herr, asQueryError, hfind, setEndsAt, apply_ite]

/-- Claim C9: two states agreeing on identity, timestamps and categorical
state, whose Labels and Annotations hold the same key/value pairs in any
insertion order, are Equals; the canonical rendering compared is
order-independent. -/
theorem equals_order_independent_claim9 (a b : State)
    (h1 : a.AlertRuleUID = b.AlertRuleUID) (h2 : a.OrgID = b.OrgID)
    (h3 : a.CacheId = b.CacheId) (h4 : a.StartsAt = b.StartsAt)
    (h5 : a.EndsAt = b.EndsAt) (h6 : a.LastEvaluationTime = b.LastEvaluationTime)
    (h7 : a.State = b.State)
    (h8 : a.Labels.Perm b.Labels) (h9 : a.Annotations.Perm b.Annotations) :
    Equals a b = true := by
  unfold Equals
  simp [h1, h2, h3, h4, h5, h6, h7, labelsString_perm h8, labelsString_perm h9]

/-! ### Witnesses: each general theorem instantiated at a concrete input -/

/-- Witness for C1: a Pending state with StartsAt 0 promoted by an
Alerting result at timestamp 150 under For = 100. -/
theorem pending_promotion_claim1_witness :
    (Transition 7 w1Rule w1Res w1State).State = EvalState.Alerting ∧
    (Transition 7 w1Rule w1Res w1State).StartsAt = 150 := by
  have h := pending_promotion_claim1 7 w1Rule w1Res w1State (by decide) (by decide)
  exact ⟨h.1.mpr (by decide), (h.2.1 (by decide)).1⟩

/-- Witness for C2: a Normal state on an Alerting result with For = 0
jumps straight to Alerting with fresh timestamps. -/
theorem fresh_alerting_claim2_witness :
    (Transition 0 w2Rule w2Res w2State).State = EvalState.Alerting ∧
    (Transition 0 w2Rule w2Res w2State).StartsAt = 60 := by
  have h := fresh_alerting_claim2 0 w2Rule w2Res w2State (by decide) (by decide) (by decide)
  exact ⟨h.2.2.1 (by decide), h.1⟩

/-- Witness for C3 (amended): an Error result at timestamp 50 under
IntervalSeconds = 60 and resend delay 0. -/
theorem endsAt_formula_claim3_witness :
    (Transition 0 w3Rule w3Res w3State).EndsAt = 50 + 3 * max 0 (nanosPerSec * 60) := by
  have h := endsAt_formula_claim3_amended 0 w3Rule w3Res w3State (by decide)
    (Or.inr (Or.inl (by decide))) (by decide)
  exact h

/-- Witness for C4: an Alerting state on a Normal result at timestamp 80
resets both StartsAt and EndsAt to 80. -/
theorem normal_result_claim4_witness :
    (Transition 0 w4Rule w4Res w4State).State = EvalState.Normal ∧
    (Transition 0 w4Rule w4Res w4State).StartsAt = 80 ∧
    (Transition 0 w4Rule w4Res w4State).EndsAt = 80 := by
  have h := normal_result_claim4 0 w4Rule w4Res w4State (by decide) (by decide)
  exact ⟨h.2.1, (h.2.2.1 (by decide)).1, (h.2.2.1 (by decide)).2⟩

/-- Witness for C5: an Alerting state with LastSentAt 0, resend delay 5
and LastEvaluationTime 10 needs sending. -/
theorem needs_sending_claim5_witness :
    NeedsSending w5State 5 = true := by
  have h := needs_sending_claim5 5 w5State
  exact (h.2.2 (by decide) (by decide)).mpr (by decide)

/-- Witness for C6: 15 history entries under For = 5 minutes and
IntervalSeconds = 60 (capacity 10) trim to exactly the last 10. -/
theorem trim_results_claim6_witness :
    (TrimResults w6Rule w6State).Results = w6State.Results.drop 5 ∧
    ((TrimResults w6Rule w6State).Results.length : Int) = 10 := by
  have h := trim_results_claim6 w6Rule w6State (by decide) (by decide) 10 (by decide)
  have h2 := h.2 (by decide)
  exact ⟨h2.1, h2.2⟩

/-- Witness for C7: a query error on reference A matching the definition
with data source ds1. -/
theorem error_enrichment_claim7_witness :
    getKV (Transition 0 w7Rule w7Res w7State).Labels "ref_id" = some "A" ∧
    getKV (Transition 0 w7Rule w7Res w7State).Labels "datasource_uid" = some "ds1" ∧
    getKV (Transition 0 w7Rule w7Res w7State).Annotations "Error" = some "boom" := by
  have h := error_enrichment_claim7 0 w7Rule w7Res w7State "A" "boom" ⟨"A", "ds1"⟩
    (by decide) (by decide) (by decide) (by decide)
  exact ⟨h.2.1, h.2.2.1, h.2.2.2⟩

/-- Witness for C8 (amended): a query error on reference B matching no
definition leaves Labels alone and writes only the Error annotation. -/
theorem error_no_match_claim8_witness :
    (Transition 0 c8Rule c8Res c8State).Labels = c8State.Labels ∧
    (Transition 0 c8Rule c8Res c8State).Annotations = setKV c8State.Annotations "Error" "boom" := by
  exact error_no_match_claim8_amended 0 c8Rule c8Res c8State "B" "boom"
    (by decide) (by decide) (by decide) (by decide)

/-- Witness for C9: two states whose label and annotation lists are
inserted in opposite orders compare Equals. -/
theorem equals_order_independent_claim9_witness :
    Equals w9a w9b = true := by
  exact equals_order_independent_claim9 w9a w9b rfl rfl rfl rfl rfl rfl rfl
    (by simpa [w9a, w9b] using List.Perm.swap ("b", "2") ("a", "1") [])
    (by simpa [w9a, w9b] using List.Perm.swap ("u", "v") ("x", "y") [])

end NgalertState
